import Mathlib

/-!
Shallow embedding of `requests_toolbelt/adapters/socket_options.py`:
the `SocketOptionsAdapter` and `TCPKeepAliveAdapter` classes.

Modelling conventions:
- A Python socket option is the triple `(level, optname, value)` of integers.
- `PyObj` models a Python value that is either `None` or a list of socket
  options; `Option PyObj` models presence or absence of a keyword argument.
- Attribute access on the `socket` module is a partial lookup over the names
  the CPython `socket` module actually exposes (Linux values); a missing name
  is an `AttributeError`, exactly as in Python.  The source file references
  `socket.IPROTO_TCP`, which is not a name the `socket` module exposes (the
  real constant is `IPPROTO_TCP`), so that lookup fails.
- Object creation by the urllib3 `PoolManager` constructor is modelled with an
  explicit allocation counter, so that two constructor calls yield pool
  managers with distinct object ids, as in Python.
- `requests.__build__` is passed as an explicit `build : Nat` parameter.
-/

/-- A socket option triple `(level, optname, value)`, all Python ints. -/
abbrev SockOpt := Int × Int × Int

/-- A Python value that is either `None` (`Option.none`) or a list of socket
options (`Option.some l`). -/
abbrev PyObj := Option (List SockOpt)

/-- A Python error raised during construction. -/
inductive PyError where
  | attributeError (attr : String)
  | typeError (msg : String)
deriving DecidableEq, Repr

/-- `socket.SOL_SOCKET` on Linux. -/
def socket.SOL_SOCKET : Int := 1

/-- `socket.SO_KEEPALIVE` on Linux. -/
def socket.SO_KEEPALIVE : Int := 9

/-- `socket.IPPROTO_TCP` on Linux. -/
def socket.IPPROTO_TCP : Int := 6

/-- `socket.TCP_NODELAY` on Linux. -/
def socket.TCP_NODELAY : Int := 1

/-- `socket.TCP_KEEPIDLE` on Linux. -/
def socket.TCP_KEEPIDLE : Int := 4

/-- `socket.TCP_KEEPINTVL` on Linux. -/
def socket.TCP_KEEPINTVL : Int := 5

/-- `socket.TCP_KEEPCNT` on Linux. -/
def socket.TCP_KEEPCNT : Int := 6

/-- Attribute access `socket.<attr>` on the CPython `socket` module (Linux):
returns the constant when the module exposes the name, and raises
`AttributeError` otherwise.  Note the module exposes `IPPROTO_TCP` but no
name `IPROTO_TCP`. -/
def socket.getattr : String → Except PyError Int
  | "SOL_SOCKET" => .ok socket.SOL_SOCKET
  | "SO_KEEPALIVE" => .ok socket.SO_KEEPALIVE
  | "IPPROTO_TCP" => .ok socket.IPPROTO_TCP
  | "TCP_NODELAY" => .ok socket.TCP_NODELAY
  | "TCP_KEEPIDLE" => .ok socket.TCP_KEEPIDLE
  | "TCP_KEEPINTVL" => .ok socket.TCP_KEEPINTVL
  | "TCP_KEEPCNT" => .ok socket.TCP_KEEPCNT
  | a => .error (.attributeError a)

/-- `urllib3.connection.HTTPConnection.default_socket_options`: the platform
default option list of the transport library, `[(socket.IPPROTO_TCP,
socket.TCP_NODELAY, 1)]`. -/
def HTTPConnection.default_socket_options : List SockOpt :=
  [(socket.IPPROTO_TCP, socket.TCP_NODELAY, 1)]

/-- A record of one `urllib3.poolmanager.PoolManager(...)` constructor call.
`objId` is the identity of the created Python object (fresh per call).
`socket_options` is `some v` when the `socket_options` keyword was passed
with value `v`, and `none` when the keyword was not passed at all (the
old-requests fallback path). -/
structure PoolManager where
  objId : Nat
  num_pools : Int
  maxsize : Int
  block : Bool
  socket_options : Option PyObj
deriving DecidableEq, Repr

/-- The state of a `SocketOptionsAdapter` instance: its stored
`self.socket_options` and its current `self.poolmanager` (if any). -/
structure SocketOptionsAdapter where
  socket_options : PyObj
  poolmanager : Option PoolManager
deriving DecidableEq, Repr

/-- `SocketOptionsAdapter.default_options = connection.HTTPConnection.default_socket_options`. -/
def SocketOptionsAdapter.default_options : List SockOpt :=
  HTTPConnection.default_socket_options

/-- `SocketOptionsAdapter.__init__`: `self.socket_options =
kwargs.pop('socket_options', self.default_options)`.  `arg` is `some v` when
the caller passed `socket_options=v` (where `v` may itself be Python `None`),
and `none` when the keyword was absent, in which case the class default list
is stored.  The base `HTTPAdapter.__init__` then receives the remaining
kwargs; its pool initialization is modelled separately by
`SocketOptionsAdapter.init_poolmanager`. -/
def SocketOptionsAdapter.init (arg : Option PyObj) : SocketOptionsAdapter :=
  { socket_options := arg.getD (some SocketOptionsAdapter.default_options),
    poolmanager := none }

/-- `requests.adapters.HTTPAdapter.init_poolmanager` (the base-class method,
external library code): creates a fresh `PoolManager` from `connections`,
`maxsize` and `block`, passing no `socket_options` keyword, and stores it on
the instance.  `nextId` is the allocation counter; the call consumes one id
and returns the updated counter. -/
def HTTPAdapter.init_poolmanager (st : SocketOptionsAdapter) (nextId : Nat)
    (connections maxsize : Int) (block : Bool) :
    SocketOptionsAdapter × Nat :=
  ({ st with
     poolmanager := some ⟨nextId, connections, maxsize, block, none⟩ },
   nextId + 1)

/-- `SocketOptionsAdapter.init_poolmanager`: when `requests.__build__ >=
0x020400`, creates a fresh `PoolManager` passing
`socket_options=self.socket_options`; otherwise falls back to the base
`HTTPAdapter.init_poolmanager`.  The method is total: it returns normally on
every input and raises nothing. -/
def SocketOptionsAdapter.init_poolmanager (build : Nat)
    (st : SocketOptionsAdapter) (nextId : Nat)
    (connections maxsize : Int) (block : Bool) :
    SocketOptionsAdapter × Nat :=
  if 0x020400 ≤ build then
    ({ st with
       poolmanager := some
         ⟨nextId, connections, maxsize, block, some st.socket_options⟩ },
     nextId + 1)
  else
    HTTPAdapter.init_poolmanager st nextId connections maxsize block

/-- The keyword arguments of `TCPKeepAliveAdapter.__init__` that its body
inspects: `idle`, `interval`, `count` (each `some v` when passed, `none`
when defaulted) and a caller-supplied `socket_options` keyword, which the
method does not pop and therefore forwards in `**kwargs`. -/
structure TCPKeepAliveKwargs where
  idle : Option Int
  interval : Option Int
  count : Option Int
  socket_options : Option PyObj
deriving DecidableEq, Repr

/-- `TCPKeepAliveAdapter.__init__`, in Python evaluation order: pop `idle`
(default 60), `interval` (default 20), `count` (default 5); build
`SocketOptionsAdapter.default_options + [(socket.SOL_SOCKET,
socket.SO_KEEPALIVE, 1), (socket.IPROTO_TCP, socket.TCP_KEEPIDLE, idle),
(socket.IPROTO_TCP, socket.TCP_KEEPINTVL, interval), (socket.IPROTO_TCP,
socket.TCP_KEEPCNT, count)]`, resolving each `socket.<attr>` left to right;
then call `super().__init__(socket_options=socket_options, **kwargs)`, which
raises `TypeError` when `kwargs` still contains a `socket_options` key
(duplicate keyword argument). -/
def TCPKeepAliveAdapter.init (kw : TCPKeepAliveKwargs) :
    Except PyError SocketOptionsAdapter := do
  let idle := kw.idle.getD 60
  let interval := kw.interval.getD 20
  let count := kw.count.getD 5
  let a1 ← socket.getattr "SOL_SOCKET"
  let a2 ← socket.getattr "SO_KEEPALIVE"
  let a3 ← socket.getattr "IPROTO_TCP"
  let a4 ← socket.getattr "TCP_KEEPIDLE"
  let a5 ← socket.getattr "IPROTO_TCP"
  let a6 ← socket.getattr "TCP_KEEPINTVL"
  let a7 ← socket.getattr "IPROTO_TCP"
  let a8 ← socket.getattr "TCP_KEEPCNT"
  let socket_options := SocketOptionsAdapter.default_options ++
    [(a1, a2, 1), (a3, a4, idle), (a5, a6, interval), (a7, a8, count)]
  if kw.socket_options.isSome then
    throw (PyError.typeError "multiple values for keyword argument socket_options")
  else
    pure (SocketOptionsAdapter.init (some (some socket_options)))

/-- C1: the claim says Keep-Alive Adapter construction with `idle=I,
interval=J, count=K` succeeds and yields `defaults ++ [(SOL_SOCKET,
SO_KEEPALIVE, 1), (IPPROTO_TCP, TCP_KEEPIDLE, I), (IPPROTO_TCP,
TCP_KEEPINTVL, J), (IPPROTO_TCP, TCP_KEEPCNT, K)]`.  On the code as written
construction never succeeds: the option-list expression reads
`socket.IPROTO_TCP`, a name the `socket` module does not expose, so for
every `I`, `J`, `K` the constructor raises `AttributeError` instead. -/
theorem tcpKeepAliveInit_raises_attributeError (I J K : Int) :
    TCPKeepAliveAdapter.init ⟨some I, some J, some K, none⟩
      = Except.error (PyError.attributeError "IPROTO_TCP") := rfl

/-- C4: the claim says `Construct(idle=120, interval=10)` with `count`
defaulted yields a list ending in `(TCP_KEEPIDLE, 120)`, `(TCP_KEEPINTVL,
10)`, `(TCP_KEEPCNT, 5)`.  The code instead raises `AttributeError` at that
very input (the defaults 60/20/5 are popped first, but the list expression
then reads the nonexistent `socket.IPROTO_TCP`), so no list is produced. -/
theorem tcpKeepAliveInit_scenario_idle120_raises :
    TCPKeepAliveAdapter.init ⟨some 120, some 10, none, none⟩
      = Except.error (PyError.attributeError "IPROTO_TCP") := rfl

/-- C8: the claim says construction succeeds for every integer `idle`,
`interval`, `count` with no validation.  No validation is indeed performed,
but construction never succeeds for any values: the `AttributeError` from
`socket.IPROTO_TCP` fires unconditionally, so no constructed state is ever
returned. -/
theorem tcpKeepAliveInit_never_succeeds (I J K : Int) :
    ∃ e : PyError,
      TCPKeepAliveAdapter.init ⟨some I, some J, some K, none⟩
        = Except.error e :=
  ⟨PyError.attributeError "IPROTO_TCP", rfl⟩

/-- C10: the claim says constructing a Keep-Alive Adapter with a
`socket_options` keyword fails with a duplicate-keyword error.  The
delegating `super().__init__(socket_options=..., **kwargs)` call would
indeed collide, but it is never reached: the option-list expression raises
`AttributeError` (`socket.IPROTO_TCP`) first, for every supplied value,
so the construction-time error is an `AttributeError`, not the
duplicate-keyword `TypeError`. -/
theorem tcpKeepAliveInit_kwarg_attr_error (v : PyObj) :
    TCPKeepAliveAdapter.init ⟨none, none, none, some v⟩
      = Except.error (PyError.attributeError "IPROTO_TCP") := rfl

/-- C2: a Socket-Options Adapter constructed with an explicit option list `L`
stores exactly `L`, and every `init_poolmanager` call on an adapter state
whose stored list is `L` (construction never changes it) passes exactly `L`,
unmutated, as the `socket_options` argument of the `PoolManager`
constructor, provided the requests build supports socket options. -/
theorem socketOptionsAdapter_explicit_list_passed
    (L : List SockOpt) (build : Nat) (hb : 0x020400 ≤ build)
    (st : SocketOptionsAdapter) (hst : st.socket_options = some L)
    (nid : Nat) (c m : Int) (b : Bool) :
    (SocketOptionsAdapter.init (some (some L))).socket_options = some L ∧
    (SocketOptionsAdapter.init_poolmanager build st nid c m b).1.poolmanager
      = some ⟨nid, c, m, b, some (some L)⟩ := by
  refine ⟨rfl, ?_⟩
  simp [SocketOptionsAdapter.init_poolmanager, hb, hst]

/-- C2 witness: the theorem applied to the list `[(1, 2, 3)]`, build
`0x020400`, and a freshly constructed adapter. -/
theorem socketOptionsAdapter_explicit_list_passed_witness :
    (SocketOptionsAdapter.init
        (some (some [((1 : Int), (2 : Int), (3 : Int))]))).socket_options
      = some [(1, 2, 3)] ∧
    (SocketOptionsAdapter.init_poolmanager 0x020400
        (SocketOptionsAdapter.init (some (some [(1, 2, 3)])))
        0 10 10 false).1.poolmanager
      = some ⟨0, 10, 10, false, some (some [(1, 2, 3)])⟩ :=
  socketOptionsAdapter_explicit_list_passed [(1, 2, 3)] 0x020400
    (Nat.le_refl _) (SocketOptionsAdapter.init (some (some [(1, 2, 3)])))
    rfl 0 10 10 false

/-- C3: a Socket-Options Adapter constructed without a `socket_options`
keyword stores exactly the platform default option list, and
`init_poolmanager` (on a supporting requests build) passes exactly that
list to the `PoolManager` constructor. -/
theorem socketOptionsAdapter_default_when_absent
    (build nid : Nat) (c m : Int) (b : Bool) (hb : 0x020400 ≤ build) :
    (SocketOptionsAdapter.init none).socket_options
      = some SocketOptionsAdapter.default_options ∧
    (SocketOptionsAdapter.init_poolmanager build
        (SocketOptionsAdapter.init none) nid c m b).1.poolmanager
      = some ⟨nid, c, m, b, some (some SocketOptionsAdapter.default_options)⟩ := by
  refine ⟨rfl, ?_⟩
  simp [SocketOptionsAdapter.init_poolmanager, SocketOptionsAdapter.init, hb]

/-- C3 witness: the theorem applied at build `0x020400` and concrete pool
parameters. -/
theorem socketOptionsAdapter_default_when_absent_witness :
    (SocketOptionsAdapter.init none).socket_options
      = some SocketOptionsAdapter.default_options ∧
    (SocketOptionsAdapter.init_poolmanager 0x020400
        (SocketOptionsAdapter.init none) 0 10 10 false).1.poolmanager
      = some ⟨0, 10, 10, false, some (some SocketOptionsAdapter.default_options)⟩ :=
  socketOptionsAdapter_default_when_absent 0x020400 0 10 10 false (Nat.le_refl _)

/-- C5: on a requests build that predates socket-option support
(`build < 0x020400`), `init_poolmanager` performs exactly the base
library's default pool initialization with the given connection count, max
size and block flag; the created pool manager receives no `socket_options`
keyword (the stored options are silently ignored), and the method returns
normally (it is a total function), raising nothing. -/
theorem socketOptionsAdapter_poolmanager_fallback
    (build : Nat) (hb : build < 0x020400)
    (st : SocketOptionsAdapter) (nid : Nat) (c m : Int) (b : Bool) :
    SocketOptionsAdapter.init_poolmanager build st nid c m b
      = HTTPAdapter.init_poolmanager st nid c m b ∧
    (SocketOptionsAdapter.init_poolmanager build st nid c m b).1.poolmanager
      = some ⟨nid, c, m, b, none⟩ := by
  have h : ¬ 0x020400 ≤ build := Nat.not_le.mpr hb
  exact ⟨by simp [SocketOptionsAdapter.init_poolmanager, h],
         by simp [SocketOptionsAdapter.init_poolmanager,
                  HTTPAdapter.init_poolmanager, h]⟩

/-- C5 witness: the theorem applied at build `0x020300` (an old requests
build) and a freshly constructed adapter. -/
theorem socketOptionsAdapter_poolmanager_fallback_witness :
    SocketOptionsAdapter.init_poolmanager 0x020300
        (SocketOptionsAdapter.init none) 0 10 10 false
      = HTTPAdapter.init_poolmanager (SocketOptionsAdapter.init none)
        0 10 10 false ∧
    (SocketOptionsAdapter.init_poolmanager 0x020300
        (SocketOptionsAdapter.init none) 0 10 10 false).1.poolmanager
      = some ⟨0, 10, 10, false, none⟩ :=
  socketOptionsAdapter_poolmanager_fallback 0x020300 (by decide)
    (SocketOptionsAdapter.init none) 0 10 10 false

/-- C6: calling `init_poolmanager` twice with the same arguments (on a
supporting requests build) creates two distinct pool managers — distinct
Python objects, here witnessed by distinct allocation ids — each configured
with the identical stored option list; the second call replaces the
instance's pool manager with the fresh one. -/
theorem socketOptionsAdapter_init_poolmanager_twice
    (build : Nat) (hb : 0x020400 ≤ build)
    (st : SocketOptionsAdapter) (nid : Nat) (c m : Int) (b : Bool) :
    ∃ pm1 pm2 : PoolManager,
      (SocketOptionsAdapter.init_poolmanager build st nid c m b).1.poolmanager
        = some pm1 ∧
      (SocketOptionsAdapter.init_poolmanager build
          (SocketOptionsAdapter.init_poolmanager build st nid c m b).1
          (SocketOptionsAdapter.init_poolmanager build st nid c m b).2
          c m b).1.poolmanager
        = some pm2 ∧
      pm1 ≠ pm2 ∧ pm1.objId ≠ pm2.objId ∧
      pm1.socket_options = some st.socket_options ∧
      pm2.socket_options = some st.socket_options := by
  refine ⟨⟨nid, c, m, b, some st.socket_options⟩,
          ⟨nid + 1, c, m, b, some st.socket_options⟩,
          ?_, ?_, ?_, Nat.ne_of_lt (Nat.lt_succ_self nid), rfl, rfl⟩
  · simp [SocketOptionsAdapter.init_poolmanager, hb]
  · simp [SocketOptionsAdapter.init_poolmanager, hb]
  · intro hEq
    exact Nat.ne_of_lt (Nat.lt_succ_self nid) (congrArg PoolManager.objId hEq)

/-- C6 witness: the theorem applied at build `0x020400`, a freshly
constructed adapter, and concrete pool parameters. -/
theorem socketOptionsAdapter_init_poolmanager_twice_witness :
    ∃ pm1 pm2 : PoolManager,
      (SocketOptionsAdapter.init_poolmanager 0x020400
          (SocketOptionsAdapter.init none) 0 10 10 false).1.poolmanager
        = some pm1 ∧
      (SocketOptionsAdapter.init_poolmanager 0x020400
          (SocketOptionsAdapter.init_poolmanager 0x020400
            (SocketOptionsAdapter.init none) 0 10 10 false).1
          (SocketOptionsAdapter.init_poolmanager 0x020400
            (SocketOptionsAdapter.init none) 0 10 10 false).2
          10 10 false).1.poolmanager
        = some pm2 ∧
      pm1 ≠ pm2 ∧ pm1.objId ≠ pm2.objId ∧
      pm1.socket_options = some (SocketOptionsAdapter.init none).socket_options ∧
      pm2.socket_options = some (SocketOptionsAdapter.init none).socket_options :=
  socketOptionsAdapter_init_poolmanager_twice 0x020400 (Nat.le_refl _)
    (SocketOptionsAdapter.init none) 0 10 10 false

/-- C7: the stored option list is an invariant: `init_poolmanager` — on any
requests build, with any arguments, from any adapter state — leaves
`socket_options` unchanged.  Construction is the only operation that sets
it, and the component defines no other method that touches it. -/
theorem socketOptionsAdapter_options_invariant
    (build : Nat) (st : SocketOptionsAdapter) (nid : Nat)
    (c m : Int) (b : Bool) :
    (SocketOptionsAdapter.init_poolmanager build st nid c m b).1.socket_options
      = st.socket_options := by
  unfold SocketOptionsAdapter.init_poolmanager HTTPAdapter.init_poolmanager
  split <;> rfl

/-- C9: any explicitly passed `socket_options` value — including Python
`None` (`v = none`) and the empty list (`v = some []`) — is stored verbatim,
bypassing the default list, and `init_poolmanager` (on a supporting
requests build) hands exactly that stored value to the `PoolManager`
constructor unchanged. -/
theorem socketOptionsAdapter_explicit_value_verbatim
    (v : PyObj) (build nid : Nat) (c m : Int) (b : Bool)
    (hb : 0x020400 ≤ build) :
    (SocketOptionsAdapter.init (some v)).socket_options = v ∧
    (SocketOptionsAdapter.init_poolmanager build
        (SocketOptionsAdapter.init (some v)) nid c m b).1.poolmanager
      = some ⟨nid, c, m, b, some v⟩ := by
  refine ⟨rfl, ?_⟩
  simp [SocketOptionsAdapter.init_poolmanager, SocketOptionsAdapter.init, hb]

/-- C9 witness: the theorem applied with explicit `socket_options=None`
(`v = none`) at build `0x020400`: Python `None` is stored verbatim and
passed on, not replaced by the default list. -/
theorem socketOptionsAdapter_explicit_value_verbatim_witness :
    (SocketOptionsAdapter.init (some (none : PyObj))).socket_options = none ∧
    (SocketOptionsAdapter.init_poolmanager 0x020400
        (SocketOptionsAdapter.init (some (none : PyObj))) 0 10 10 false).1.poolmanager
      = some ⟨0, 10, 10, false, some none⟩ :=
  socketOptionsAdapter_explicit_value_verbatim none 0x020400 0 10 10 false
    (Nat.le_refl _)
